import Mathlib

/-!
Verification of the zeroentropy-rust client library request/response pipeline.

The definitions below are a shallow embedding of the code in src/client.rs,
src/error.rs, src/types.rs and src/resources/, plus a small model of the
external serde_json parser (only its observable behavior matters here:
parse a body, fetch a string field). Machine integers (u16 status codes,
u32 retry counters, u64 millisecond delays) are modelled as Nat, with an
explicit mod 2 ^ 64 where u64 multiplication and exponentiation can wrap.
-/

namespace ZeroEntropy

/-! ## JSON values, modelling serde_json::Value -/

inductive Json where
  | null : Json
  | bool : Bool → Json
  /-- Numbers are kept as their raw token; no claim inspects numeric values. -/
  | num : String → Json
  | str : String → Json
  | arr : List Json → Json
  | obj : List (String × Json) → Json

/-- serde_json builds objects with insert semantics: on duplicate keys the
last value wins, so lookup prefers the rightmost binding. -/
def lookupLast (key : String) : List (String × Json) → Option Json
  | [] => none
  | kv :: rest =>
    match lookupLast key rest with
    | some v => some v
    | none => if kv.1 == key then some kv.2 else none

/-- serde_json::Value::get with a string index: only objects have fields. -/
def Json.get (j : Json) (key : String) : Option Json :=
  match j with
  | .obj fields => lookupLast key fields
  | _ => none

/-- serde_json::Value::as_str. -/
def Json.as_str : Json → Option String
  | .str s => some s
  | _ => none

def Json.hasKey (j : Json) (key : String) : Bool :=
  match j with
  | .obj fields => fields.any (fun kv => kv.1 == key)
  | _ => false

def Json.isObj : Json → Bool
  | .obj _ => true
  | _ => false

/-! ## A JSON text parser, modelling serde_json::from_str::<Value>.

serde_json is an external dependency; this parser models the fragment of
its behavior the pipeline observes: a body either parses to a value
(whitespace-framed single JSON value) or fails. Escapes are decoded; a
\u escape is decoded as a single code unit (surrogate pairing is not
modelled, no claim exercises it). -/

def isWs (c : Char) : Bool := c == ' ' || c == '\t' || c == '\n' || c == '\r'

def skipWs : List Char → List Char
  | [] => []
  | c :: cs => if isWs c then skipWs cs else c :: cs

def hexVal (c : Char) : Option Nat :=
  if '0' ≤ c ∧ c ≤ '9' then some (c.toNat - '0'.toNat)
  else if 'a' ≤ c ∧ c ≤ 'f' then some (c.toNat - 'a'.toNat + 10)
  else if 'A' ≤ c ∧ c ≤ 'F' then some (c.toNat - 'A'.toNat + 10)
  else none

def escChar (c : Char) : Option Char :=
  if c = '"' then some '"'
  else if c = '\\' then some '\\'
  else if c = '/' then some '/'
  else if c = 'b' then some (Char.ofNat 8)
  else if c = 'f' then some (Char.ofNat 12)
  else if c = 'n' then some '\n'
  else if c = 'r' then some '\r'
  else if c = 't' then some '\t'
  else none

def parseStringBody (acc : List Char) : List Char → Option (String × List Char)
  | [] => none
  | c :: rest =>
    if c = '"' then some (String.mk acc.reverse, rest)
    else if c = '\\' then
      match rest with
      | [] => none
      | e :: rest2 =>
        if e = 'u' then
          match rest2 with
          | h1 :: h2 :: h3 :: h4 :: rest3 =>
            match hexVal h1, hexVal h2, hexVal h3, hexVal h4 with
            | some a, some b, some c2, some d =>
              parseStringBody (Char.ofNat (((a * 16 + b) * 16 + c2) * 16 + d) :: acc) rest3
            | _, _, _, _ => none
          | _ => none
        else
          match escChar e with
          | some ec => parseStringBody (ec :: acc) rest2
          | none => none
    else if c.toNat < 32 then none
    else parseStringBody (c :: acc) rest

def parseFrac (cs : List Char) : Option (List Char × List Char) :=
  match cs with
  | c :: r =>
    if c = '.' then
      let p := r.span (fun d => d.isDigit)
      if p.1.isEmpty then none else some ('.' :: p.1, p.2)
    else some ([], cs)
  | [] => some ([], [])

def parseExp (cs : List Char) : Option (List Char × List Char) :=
  match cs with
  | c :: r =>
    if c = 'e' ∨ c = 'E' then
      let q :=
        match r with
        | s :: r2 => if s = '+' ∨ s = '-' then ([s], r2) else (([] : List Char), r)
        | [] => ([], [])
      let p := q.2.span (fun d => d.isDigit)
      if p.1.isEmpty then none else some (c :: (q.1 ++ p.1), p.2)
    else some ([], cs)
  | [] => some ([], [])

def parseNumber (cs : List Char) : Option (Json × List Char) :=
  let m :=
    match cs with
    | c :: r => if c = '-' then (['-'], r) else (([] : List Char), cs)
    | [] => ([], [])
  let ip := m.2.span (fun d => d.isDigit)
  if ip.1.isEmpty then none
  else
    match parseFrac ip.2 with
    | none => none
    | some (fp, cs3) =>
      match parseExp cs3 with
      | none => none
      | some (ep, cs4) => some (.num (String.mk (m.1 ++ ip.1 ++ fp ++ ep)), cs4)

mutual

def parseValue : Nat → List Char → Option (Json × List Char)
  | 0, _ => none
  | fuel + 1, cs =>
    match skipWs cs with
    | [] => none
    | c :: rest =>
      if c = 'n' then
        match rest with
        | 'u' :: 'l' :: 'l' :: r => some (.null, r)
        | _ => none
      else if c = 't' then
        match rest with
        | 'r' :: 'u' :: 'e' :: r => some (.bool true, r)
        | _ => none
      else if c = 'f' then
        match rest with
        | 'a' :: 'l' :: 's' :: 'e' :: r => some (.bool false, r)
        | _ => none
      else if c = '"' then
        match parseStringBody [] rest with
        | some (s, r) => some (.str s, r)
        | none => none
      else if c = '[' then
        match skipWs rest with
        | ']' :: r => some (.arr [], r)
        | cs2 =>
          match parseElems fuel cs2 with
          | some (es, r) => some (.arr es, r)
          | none => none
      else if c = '\x7b' then
        match skipWs rest with
        | '\x7d' :: r => some (.obj [], r)
        | cs2 =>
          match parseMembers fuel cs2 with
          | some (fs, r) => some (.obj fs, r)
          | none => none
      else parseNumber (c :: rest)

def parseElems : Nat → List Char → Option (List Json × List Char)
  | 0, _ => none
  | fuel + 1, cs =>
    match parseValue fuel cs with
    | none => none
    | some (v, r) =>
      match skipWs r with
      | ',' :: r2 =>
        match parseElems fuel r2 with
        | some (vs, r3) => some (v :: vs, r3)
        | none => none
      | ']' :: r2 => some ([v], r2)
      | _ => none

def parseMembers : Nat → List Char → Option (List (String × Json) × List Char)
  | 0, _ => none
  | fuel + 1, cs =>
    match skipWs cs with
    | '"' :: r =>
      match parseStringBody [] r with
      | none => none
      | some (k, r2) =>
        match skipWs r2 with
        | ':' :: r3 =>
          match parseValue fuel r3 with
          | none => none
          | some (v, r4) =>
            match skipWs r4 with
            | ',' :: r5 =>
              match parseMembers fuel r5 with
              | some (fs, r6) => some ((k, v) :: fs, r6)
              | none => none
            | '\x7d' :: r5 => some ([(k, v)], r5)
            | _ => none
        | _ => none
    | _ => none

end

/-- serde_json::from_str::<Value>: one JSON value, optionally framed by
whitespace, nothing after it. The fuel bound dominates every call chain of
the parser on the given input. -/
def parseJson (s : String) : Option Json :=
  match parseValue (2 * s.length + 4) s.data with
  | some (v, rest) => if (skipWs rest).isEmpty then some v else none
  | none => none

/-! ## src/error.rs -/

/-- The two faces of a reqwest::Error the pipeline can produce: a
transport-level failure (DNS, connect, timeout, body read) or a body
deserialization failure (reqwest marks the latter with is_decode). Both
are wrapped in the same Error::Http variant by the code. -/
inductive ReqwestError where
  | transport : ReqwestError
  | decode : ReqwestError
deriving DecidableEq

/-- The Error enum of src/error.rs. Payloads of variants the pipeline never
constructs (Json, Io, Base64) are modelled as their message strings. -/
inductive Error where
  | Http : ReqwestError → Error
  | Api : Nat → String → Error
  | BadRequest : String → Error
  | AuthenticationError : String → Error
  | PermissionDenied : String → Error
  | NotFound : String → Error
  | Conflict : String → Error
  | UnprocessableEntity : String → Error
  | RateLimitExceeded : String → Error
  | InternalServerError : String → Error
  | Json : String → Error
  | InvalidApiKey : Error
  | Io : String → Error
  | Base64 : String → Error
deriving DecidableEq

/-- Constructor index: two errors are the same kind (same enum variant)
exactly when their indices agree. -/
def Error.ctorIdx : Error → Nat
  | .Http _ => 0
  | .Api _ _ => 1
  | .BadRequest _ => 2
  | .AuthenticationError _ => 3
  | .PermissionDenied _ => 4
  | .NotFound _ => 5
  | .Conflict _ => 6
  | .UnprocessableEntity _ => 7
  | .RateLimitExceeded _ => 8
  | .InternalServerError _ => 9
  | .Json _ => 10
  | .InvalidApiKey => 11
  | .Io _ => 12
  | .Base64 _ => 13

/-- Error::from_status of src/error.rs. The Rust match has disjoint
patterns 400, 401, 403, 404, 409, 422, 429, 500..=599, wildcard; the
if-chain below is its direct translation. -/
def Error.from_status (status : Nat) (message : String) : Error :=
  if status = 400 then .BadRequest message
  else if status = 401 then .AuthenticationError message
  else if status = 403 then .PermissionDenied message
  else if status = 404 then .NotFound message
  else if status = 409 then .Conflict message
  else if status = 422 then .UnprocessableEntity message
  else if status = 429 then .RateLimitExceeded message
  else if 500 ≤ status ∧ status ≤ 599 then .InternalServerError message
  else .Api status message

/-! ## src/client.rs -/

def DEFAULT_BASE_URL : String := "https://api.zeroentropy.dev/v1"

/-- 60 seconds, in milliseconds. -/
def DEFAULT_TIMEOUT : Nat := 60000

def DEFAULT_MAX_RETRIES : Nat := 2

/-- The Client struct (configuration part; the reqwest connection pool
itself carries no pipeline-visible state). -/
structure Client where
  api_key : String
  base_url : String
  timeout : Nat
  max_retries : Nat
deriving DecidableEq

/-- Client::should_retry: matches!(status, 408 | 409 | 429) || status >= 500,
on a u16 status code. -/
def Client.should_retry (status : Nat) : Bool :=
  (status == 408 || status == 409 || status == 429) || decide (500 ≤ status)

/-- One u64 overflow period. -/
def U64_MOD : Nat := 2 ^ 64

/-- Client::calculate_retry_delay: 500ms * 2_u64.pow(attempt - 1), capped at
8000ms. u64 exponentiation and multiplication wrap mod 2 ^ 64 (release
build semantics); every call site passes attempt >= 1, so the u32
subtraction attempt - 1 matches Nat truncating subtraction here. The
result is the delay in milliseconds. -/
def Client.calculate_retry_delay (attempt : Nat) : Nat :=
  let base_delay := 500
  let max_delay := 8000
  let delay := (base_delay * (2 ^ (attempt - 1) % U64_MOD)) % U64_MOD
  min delay max_delay

/-- StatusCode::is_success: 200..=299. -/
def Client.is_success (status : Nat) : Bool := decide (200 ≤ status ∧ status ≤ 299)

/-- A finalized HTTP response: status code plus body text; body = none
models a response whose body could not be read (response.text() fails). -/
structure HttpResponse where
  status : Nat
  body : Option String
deriving DecidableEq

/-- The JSON-message extraction chain of Client::handle_response:
serde_json::from_str(text).ok().and_then(get "message").and_then(as_str). -/
def Client.extract_message (error_text : String) : Option String :=
  match parseJson error_text with
  | none => none
  | some v =>
    match v.get "message" with
    | none => none
    | some m => m.as_str

/-- Client::handle_response. The caller-specified deserialization
(response.json::<R>()) is the function dec; dec returning none is a serde
decode failure, which reqwest reports as an Error with is_decode, wrapped
by #[from] into Error::Http. A success response whose body cannot be read
is likewise a reqwest transport failure inside response.json(). -/
def Client.handle_response {R : Type} (dec : String → Option R)
    (response : HttpResponse) : Except Error R :=
  if Client.is_success response.status then
    match response.body with
    | some text =>
      match dec text with
      | some v => .ok v
      | none => .error (.Http .decode)
    | none => .error (.Http .transport)
  else
    let error_text := response.body.getD "Unknown error"
    let message := (Client.extract_message error_text).getD error_text
    .error (Error.from_status response.status message)

/-- What one network attempt yields: a transport-level failure of send()
(reqwest::Error, propagated by the question mark operator), or a response. -/
inductive AttemptOutcome where
  | failure : AttemptOutcome
  | response : HttpResponse → AttemptOutcome

/-- Observable outcome of one logical post call: the returned value,
the number of network attempts issued, and the successive arguments
passed to calculate_retry_delay (one per backoff sleep, in order). -/
structure PostResult (R : Type) where
  result : Except Error R
  attemptsUsed : Nat
  sleeps : List Nat

/-- The retry loop of Client::post. attempts is the loop counter (starts
at 0); i indexes network attempts so that outcomes i is what the i-th
send() yields for this logical call (the request re-issued each iteration
is identical, so the environment is indexed by attempt number only).
A transport failure returns immediately through the question mark
operator; otherwise, while attempts < max_retries and the status is
retryable, the code increments attempts, sleeps for
calculate_retry_delay(attempts) and loops; else it finalizes through
handle_response. -/
def postLoop {R : Type} (dec : String → Option R) (max_retries : Nat)
    (outcomes : Nat → AttemptOutcome) (attempts i : Nat) : PostResult R :=
  match outcomes i with
  | .failure => ⟨.error (.Http .transport), i + 1, []⟩
  | .response r =>
    if h : attempts < max_retries ∧ Client.should_retry r.status = true then
      let rest := postLoop dec max_retries outcomes (attempts + 1) (i + 1)
      ⟨rest.result, rest.attemptsUsed, (attempts + 1) :: rest.sleeps⟩
    else
      ⟨Client.handle_response dec r, i + 1, []⟩
termination_by max_retries - attempts
decreasing_by simp_wf; omega

/-- Client::post for one logical call, with the transport behavior given
by outcomes. -/
def Client.post {R : Type} (c : Client) (dec : String → Option R)
    (outcomes : Nat → AttemptOutcome) : PostResult R :=
  postLoop dec c.max_retries outcomes 0 0

/-! ## ClientBuilder (src/client.rs) -/

/-- The two environment variables the builder consults. An empty string is
a present value (std::env::var returns Ok for a set-but-empty variable). -/
structure Env where
  zeroentropy_api_key : Option String
  zeroentropy_base_url : Option String

structure ClientBuilder where
  api_key : Option String
  base_url : Option String
  timeout : Option Nat
  max_retries : Option Nat

/-- ClientBuilder::build: api_key from the explicit value, else the
environment, else the construction fails with InvalidApiKey; base_url from
the explicit value, else the environment, else the default; timeout and
max_retries default. The final HttpClient::builder().timeout(t).build()
step assembles the reqwest connection pool without any network call, but
it is fallible (TLS backend or resolver initialization), and its question
mark operator surfaces that reqwest error as Error::Http; the parameter
http_build is the outcome of that external step. -/
def ClientBuilder.build (self : ClientBuilder) (env : Env)
    (http_build : Except ReqwestError Unit) : Except Error Client :=
  match self.api_key.orElse (fun _ => env.zeroentropy_api_key) with
  | none => .error Error.InvalidApiKey
  | some api_key =>
    let base_url := (self.base_url.orElse (fun _ => env.zeroentropy_base_url)).getD DEFAULT_BASE_URL
    let timeout := self.timeout.getD DEFAULT_TIMEOUT
    let max_retries := self.max_retries.getD DEFAULT_MAX_RETRIES
    match http_build with
    | .error e => .error (.Http e)
    | .ok _ => .ok ⟨api_key, base_url, timeout, max_retries⟩

/-- Client::new(api_key): builder().api_key(key).build(). -/
def Client.new (api_key : String) (env : Env)
    (http_build : Except ReqwestError Unit) : Except Error Client :=
  ClientBuilder.build ⟨some api_key, none, none, none⟩ env http_build

/-! ## src/types.rs: the payload types appearing in request bodies -/

/-- DocumentContent, serde internally tagged with tag = "type",
rename_all = lowercase. -/
inductive DocumentContent where
  | text : String → DocumentContent
  | auto : String → DocumentContent

def DocumentContent.toJson : DocumentContent → Json
  | .text t => .obj [("type", .str "text"), ("text", .str t)]
  | .auto b => .obj [("type", .str "auto"), ("base64_data", .str b)]

/-- MetadataValue, serde untagged: a bare string or a bare string array. -/
inductive MetadataValue where
  | str : String → MetadataValue
  | arr : List String → MetadataValue

def MetadataValue.toJson : MetadataValue → Json
  | .str s => .str s
  | .arr xs => .arr (xs.map Json.str)

/-- Metadata = HashMap<String, MetadataValue>, modelled as an association
list (HashMap iteration order is arbitrary; metadata only ever appears as
an opaque value of a request field, never as top-level keys). -/
def Metadata : Type := List (String × MetadataValue)

def Metadata.toJson (m : Metadata) : Json :=
  .obj (m.map (fun kv => (kv.1, kv.2.toJson)))

/-- Filter = HashMap<String, serde_json::Value>, same modelling. -/
def Filter : Type := List (String × Json)

def Filter.toJson (f : Filter) : Json := .obj f

/-- LatencyMode, serde rename_all = lowercase. -/
inductive LatencyMode where
  | low : LatencyMode
  | high : LatencyMode

def LatencyMode.toJson : LatencyMode → Json
  | .low => .str "low"
  | .high => .str "high"

/-- IndexStatus, serde rename_all = snake_case. -/
inductive IndexStatus where
  | notParsed | notIndexed | parsing | parsingFailed
  | indexing | indexingFailed | indexed

def IndexStatus.toJson : IndexStatus → Json
  | .notParsed => .str "not_parsed"
  | .notIndexed => .str "not_indexed"
  | .parsing => .str "parsing"
  | .parsingFailed => .str "parsing_failed"
  | .indexing => .str "indexing"
  | .indexingFailed => .str "indexing_failed"
  | .indexed => .str "indexed"

structure RerankDocument where
  id : String
  text : String

def RerankDocument.toJson (d : RerankDocument) : Json :=
  .obj [("id", .str d.id), ("text", .str d.text)]

/-- A u32 serializes as a JSON number. -/
def natJson (n : Nat) : Json := .num (toString n)

/-- serde skip_serializing_if = Option::is_none: the field is emitted
exactly when the value is present. -/
def optField (key : String) (v : Option Json) : List (String × Json) :=
  match v with
  | none => []
  | some j => [(key, j)]

/-! ## src/resources/: the request body of every facade operation.

Each Rust operation declares a local #[derive(Serialize)] struct Request;
the toJson function of each structure below is the serde serialization of
that struct: fields in declaration order, Option fields annotated
skip_serializing_if = Option::is_none omitted when None. -/

/-- Collections::add and Collections::delete share this request shape. -/
structure CollectionNameRequest where
  collection_name : String

def CollectionNameRequest.toJson (r : CollectionNameRequest) : Json :=
  .obj [("collection_name", .str r.collection_name)]

/-- Collections::get_list sends serde_json::json!(empty object). -/
def getCollectionListBody : Json := .obj []

structure AddDocumentRequest where
  collection_name : String
  path : String
  content : DocumentContent
  metadata : Option Metadata
  overwrite : Option Bool

def AddDocumentRequest.toJson (r : AddDocumentRequest) : Json :=
  .obj ([("collection_name", .str r.collection_name),
         ("path", .str r.path),
         ("content", r.content.toJson)]
    ++ optField "metadata" (r.metadata.map Metadata.toJson)
    ++ optField "overwrite" (r.overwrite.map Json.bool))

structure UpdateDocumentRequest where
  collection_name : String
  path : String
  metadata : Option Metadata
  index_status : Option IndexStatus

def UpdateDocumentRequest.toJson (r : UpdateDocumentRequest) : Json :=
  .obj ([("collection_name", .str r.collection_name),
         ("path", .str r.path)]
    ++ optField "metadata" (r.metadata.map Metadata.toJson)
    ++ optField "index_status" (r.index_status.map IndexStatus.toJson))

structure DeleteDocumentRequest where
  collection_name : String
  path : String

def DeleteDocumentRequest.toJson (r : DeleteDocumentRequest) : Json :=
  .obj [("collection_name", .str r.collection_name),
        ("path", .str r.path)]

structure GetDocumentInfoRequest where
  collection_name : String
  path : String
  include_content : Option Bool

def GetDocumentInfoRequest.toJson (r : GetDocumentInfoRequest) : Json :=
  .obj ([("collection_name", .str r.collection_name),
         ("path", .str r.path)]
    ++ optField "include_content" (r.include_content.map Json.bool))

structure GetDocumentInfoListRequest where
  collection_name : String
  limit : Option Nat
  path_gt : Option String

def GetDocumentInfoListRequest.toJson (r : GetDocumentInfoListRequest) : Json :=
  .obj ([("collection_name", .str r.collection_name)]
    ++ optField "limit" (r.limit.map natJson)
    ++ optField "path_gt" (r.path_gt.map Json.str))

structure GetPageInfoRequest where
  collection_name : String
  path : String
  page_number : Nat
  include_content : Option Bool

def GetPageInfoRequest.toJson (r : GetPageInfoRequest) : Json :=
  .obj ([("collection_name", .str r.collection_name),
         ("path", .str r.path),
         ("page_number", natJson r.page_number)]
    ++ optField "include_content" (r.include_content.map Json.bool))

structure TopDocumentsRequest where
  collection_name : String
  query : String
  k : Nat
  filter : Option Filter
  include_metadata : Option Bool
  latency_mode : Option LatencyMode
  reranker : Option String

def TopDocumentsRequest.toJson (r : TopDocumentsRequest) : Json :=
  .obj ([("collection_name", .str r.collection_name),
         ("query", .str r.query),
         ("k", natJson r.k)]
    ++ optField "filter" (r.filter.map Filter.toJson)
    ++ optField "include_metadata" (r.include_metadata.map Json.bool)
    ++ optField "latency_mode" (r.latency_mode.map LatencyMode.toJson)
    ++ optField "reranker" (r.reranker.map Json.str))

structure TopPagesRequest where
  collection_name : String
  query : String
  k : Nat
  filter : Option Filter
  include_content : Option Bool
  latency_mode : Option LatencyMode

def TopPagesRequest.toJson (r : TopPagesRequest) : Json :=
  .obj ([("collection_name", .str r.collection_name),
         ("query", .str r.query),
         ("k", natJson r.k)]
    ++ optField "filter" (r.filter.map Filter.toJson)
    ++ optField "include_content" (r.include_content.map Json.bool)
    ++ optField "latency_mode" (r.latency_mode.map LatencyMode.toJson))

structure TopSnippetsRequest where
  collection_name : String
  query : String
  k : Nat
  filter : Option Filter
  include_document_metadata : Option Bool
  precise_responses : Option Bool
  reranker : Option String

def TopSnippetsRequest.toJson (r : TopSnippetsRequest) : Json :=
  .obj ([("collection_name", .str r.collection_name),
         ("query", .str r.query),
         ("k", natJson r.k)]
    ++ optField "filter" (r.filter.map Filter.toJson)
    ++ optField "include_document_metadata" (r.include_document_metadata.map Json.bool)
    ++ optField "precise_responses" (r.precise_responses.map Json.bool)
    ++ optField "reranker" (r.reranker.map Json.str))

structure RerankRequest where
  query : String
  documents : List RerankDocument
  model_id : Option String
  top_k : Option Nat

def RerankRequest.toJson (r : RerankRequest) : Json :=
  .obj ([("query", .str r.query),
         ("documents", .arr (r.documents.map RerankDocument.toJson))]
    ++ optField "model_id" (r.model_id.map Json.str)
    ++ optField "top_k" (r.top_k.map natJson))

/-! ## Concrete fixtures used by the witnesses and examples -/

/-- A caller result shape for R = Unit: the body "ok" decodes, anything
else is a deserialization failure. -/
def decUnit : String → Option Unit := fun s => if s = "ok" then some () else none

/-- A client built with the default max_retries = 2. -/
def client2 : Client := ⟨"test-key", DEFAULT_BASE_URL, 60000, 2⟩

def resp429 : HttpResponse := ⟨429, some "slow down"⟩
def resp200 : HttpResponse := ⟨200, some "ok"⟩
def resp500 : HttpResponse := ⟨500, some "boom"⟩
def resp404 : HttpResponse := ⟨404, some "\x7b\"message\":\"Collection not found\"\x7d"⟩

/-- Two rate-limit responses, then success. -/
def seq429200 : Nat → AttemptOutcome := fun i =>
  if i < 2 then .response resp429 else .response resp200

/-- Server errors forever. -/
def seq500 : Nat → AttemptOutcome := fun _ => .response resp500

/-- A not-found response. -/
def seq404 : Nat → AttemptOutcome := fun _ => .response resp404

/-- The transport fails on every attempt. -/
def seqFail : Nat → AttemptOutcome := fun _ => .failure

/-- Every attempt yields a success status whose body does not decode. -/
def seqBadBody : Nat → AttemptOutcome := fun _ => .response ⟨200, some "garbage"⟩

/-! ## Shared lemmas about the retry loop -/

/-- A transport failure of send() propagates at once: no retry, no sleep,
no further attempt. -/
theorem postLoop_failure {R : Type} (dec : String → Option R) (mr : Nat)
    (outcomes : Nat → AttemptOutcome) (attempts i : Nat)
    (hf : outcomes i = .failure) :
    postLoop dec mr outcomes attempts i = ⟨.error (.Http .transport), i + 1, []⟩ := by
  rw [postLoop, hf]

/-- A retryable status with budget remaining: one sleep with argument
attempts + 1, then the loop continues on the incremented counters. -/
theorem postLoop_retry {R : Type} (dec : String → Option R) (mr : Nat)
    (outcomes : Nat → AttemptOutcome) (attempts i : Nat) (r : HttpResponse)
    (hr : outcomes i = .response r) (ha : attempts < mr)
    (hs : Client.should_retry r.status = true) :
    postLoop dec mr outcomes attempts i =
      ⟨(postLoop dec mr outcomes (attempts + 1) (i + 1)).result,
       (postLoop dec mr outcomes (attempts + 1) (i + 1)).attemptsUsed,
       (attempts + 1) :: (postLoop dec mr outcomes (attempts + 1) (i + 1)).sleeps⟩ := by
  rw [postLoop, hr]
  exact dif_pos ⟨ha, hs⟩

/-- A non-retryable status, or an exhausted budget: finalize through
handle_response, no further attempt, no sleep. -/
theorem postLoop_final {R : Type} (dec : String → Option R) (mr : Nat)
    (outcomes : Nat → AttemptOutcome) (attempts i : Nat) (r : HttpResponse)
    (hr : outcomes i = .response r)
    (hn : ¬(attempts < mr ∧ Client.should_retry r.status = true)) :
    postLoop dec mr outcomes attempts i = ⟨Client.handle_response dec r, i + 1, []⟩ := by
  rw [postLoop, hr]
  exact dif_neg hn

theorem postLoop_attempts_le {R : Type} (dec : String → Option R) (mr : Nat)
    (outcomes : Nat → AttemptOutcome) :
    ∀ fuel attempts i, mr - attempts ≤ fuel →
      (postLoop dec mr outcomes attempts i).attemptsUsed ≤ i + (mr - attempts) + 1 := by
  intro fuel
  induction fuel with
  | zero =>
    intro attempts i hf
    cases h : outcomes i with
    | failure =>
      rw [postLoop_failure dec mr outcomes attempts i h]
      show i + 1 ≤ i + (mr - attempts) + 1
      omega
    | response r =>
      rw [postLoop_final dec mr outcomes attempts i r h (by rintro ⟨h1, h2⟩; omega)]
      show i + 1 ≤ i + (mr - attempts) + 1
      omega
  | succ fuel ih =>
    intro attempts i hf
    cases h : outcomes i with
    | failure =>
      rw [postLoop_failure dec mr outcomes attempts i h]
      show i + 1 ≤ i + (mr - attempts) + 1
      omega
    | response r =>
      by_cases hc : attempts < mr ∧ Client.should_retry r.status = true
      · rw [postLoop_retry dec mr outcomes attempts i r h hc.1 hc.2]
        show (postLoop dec mr outcomes (attempts + 1) (i + 1)).attemptsUsed ≤ i + (mr - attempts) + 1
        have := ih (attempts + 1) (i + 1) (by omega)
        omega
      · rw [postLoop_final dec mr outcomes attempts i r h hc]
        show i + 1 ≤ i + (mr - attempts) + 1
        omega

/-- Every backoff argument recorded by the loop lies strictly above the
entry counter and never exceeds max_retries. -/
theorem postLoop_sleeps_mem {R : Type} (dec : String → Option R) (mr : Nat)
    (outcomes : Nat → AttemptOutcome) :
    ∀ fuel attempts i, mr - attempts ≤ fuel →
      ∀ n ∈ (postLoop dec mr outcomes attempts i).sleeps, attempts < n ∧ n ≤ mr := by
  intro fuel
  induction fuel with
  | zero =>
    intro attempts i hf n hn
    cases h : outcomes i with
    | failure =>
      rw [postLoop_failure dec mr outcomes attempts i h] at hn
      simp at hn
    | response r =>
      rw [postLoop_final dec mr outcomes attempts i r h (by rintro ⟨h1, h2⟩; omega)] at hn
      simp at hn
  | succ fuel ih =>
    intro attempts i hf n hn
    cases h : outcomes i with
    | failure =>
      rw [postLoop_failure dec mr outcomes attempts i h] at hn
      simp at hn
    | response r =>
      by_cases hc : attempts < mr ∧ Client.should_retry r.status = true
      · rw [postLoop_retry dec mr outcomes attempts i r h hc.1 hc.2] at hn
        have hn2 : n = attempts + 1 ∨ n ∈ (postLoop dec mr outcomes (attempts + 1) (i + 1)).sleeps := by
          simpa using hn
        rcases hn2 with rfl | hn2
        · exact ⟨by omega, by omega⟩
        · have := ih (attempts + 1) (i + 1) (by omega) n hn2
          omega
      · rw [postLoop_final dec mr outcomes attempts i r h hc] at hn
        simp at hn

/-- max_retries = 2, responses 429, 429, 200: three attempts, two sleeps
with arguments 1 and 2, final success. -/
theorem post_seq429200 :
    Client.post client2 decUnit seq429200 = ⟨.ok (), 3, [1, 2]⟩ := by
  show postLoop decUnit 2 seq429200 0 0 = _
  rw [postLoop_retry decUnit 2 seq429200 0 0 resp429 rfl (by omega) (by decide)]
  rw [postLoop_retry decUnit 2 seq429200 1 1 resp429 rfl (by omega) (by decide)]
  rw [postLoop_final decUnit 2 seq429200 2 2 resp200 rfl (by rintro ⟨h1, h2⟩; omega)]
  rfl

/-- max_retries = 2, responses 500, 500, 500: three attempts, final
InternalServerError carrying the body text. -/
theorem post_seq500 :
    Client.post client2 decUnit seq500 = ⟨.error (.InternalServerError "boom"), 3, [1, 2]⟩ := by
  show postLoop decUnit 2 seq500 0 0 = _
  rw [postLoop_retry decUnit 2 seq500 0 0 resp500 rfl (by omega) (by decide)]
  rw [postLoop_retry decUnit 2 seq500 1 1 resp500 rfl (by omega) (by decide)]
  rw [postLoop_final decUnit 2 seq500 2 2 resp500 rfl (by rintro ⟨h1, h2⟩; omega)]
  rfl

/-- A 404 with a JSON message body: immediate NotFound, one attempt, no
retries. -/
theorem post_seq404 :
    Client.post client2 decUnit seq404 = ⟨.error (.NotFound "Collection not found"), 1, []⟩ := by
  show postLoop decUnit 2 seq404 0 0 = _
  rw [postLoop_final decUnit 2 seq404 0 0 resp404 rfl
    (by rintro ⟨h1, h2⟩; exact absurd h2 (by decide))]
  rfl

/-- Shared arithmetic fact: the wrapped u64 product equals the product
taken mod 2 ^ 64. -/
theorem mulmod_key (m : Nat) : (500 * (m % U64_MOD)) % U64_MOD = (500 * m) % U64_MOD := by
  conv_lhs => rw [Nat.mul_mod]
  conv_rhs => rw [Nat.mul_mod]
  rw [Nat.mod_mod_of_dvd _ (dvd_refl U64_MOD)]

/-- For 63 and above, the wrapped product 500 * 2 ^ (n - 1) is a multiple
of 2 ^ 64, so the computed delay is 0 milliseconds, not the 8000 cap. -/
theorem calculate_retry_delay_high (n : Nat) (h : 63 ≤ n) :
    Client.calculate_retry_delay n = 0 := by
  show min ((500 * (2 ^ (n - 1) % U64_MOD)) % U64_MOD) 8000 = 0
  rw [mulmod_key]
  have h2 : (2 : Nat) ^ (n - 1) = 2 ^ 62 * 2 ^ (n - 63) := by
    rw [← pow_add]
    congr 1
    omega
  rw [h2, ← mul_assoc]
  have h3 : (500 : Nat) * 2 ^ 62 = U64_MOD * 125 := by decide
  rw [h3, mul_assoc, Nat.mul_mod_right]
  rfl

/-- Between 5 and 62 the cap applies: the product has not yet wrapped to
a multiple of 2 ^ 64 and already exceeds 8000. -/
theorem calculate_retry_delay_mid :
    ∀ m, m < 63 → 5 ≤ m → Client.calculate_retry_delay m = 8000 := by decide

/-! ## The claims -/

/-- C1, counterexample. The claim says should_retry(status) is true iff
status lies in 408, 409, 429 or in 500..599, and false for every other
status. The code tests status >= 500 with no upper bound, and a u16
status of 600 is deliverable (the http crate accepts any code in
100..=999 from the wire): should_retry(600) is true although 600 is
outside the set the claim allows. -/
theorem c1_should_retry_counterexample :
    Client.should_retry 600 = true
    ∧ ¬(600 = 408 ∨ 600 = 409 ∨ 600 = 429 ∨ (500 ≤ 600 ∧ 600 ≤ 599)) := by decide

/-- C1, amended. For every u16 status code, should_retry(status) is true
iff status is 408, 409, 429 or at least 500 (not only 500..599); in
particular every 2xx and each of 400, 401, 403, 404, 422 is terminal. -/
theorem c1_should_retry_amended : ∀ s : Nat, s ≤ 65535 →
    (Client.should_retry s = true ↔ (s = 408 ∨ s = 409 ∨ s = 429 ∨ 500 ≤ s))
    ∧ (200 ≤ s ∧ s ≤ 299 → Client.should_retry s = false)
    ∧ (s = 400 ∨ s = 401 ∨ s = 403 ∨ s = 404 ∨ s = 422 → Client.should_retry s = false) := by
  intro s hs
  refine ⟨?_, ?_, ?_⟩
  · simp [Client.should_retry]
    tauto
  · rintro ⟨h1, h2⟩
    simp [Client.should_retry]
    omega
  · intro h
    simp [Client.should_retry]
    omega

/-- C1, witness for the amended theorem at status 429. -/
theorem c1_should_retry_amended_witness :
    (429 : Nat) ≤ 65535
    ∧ ((Client.should_retry 429 = true ↔ (429 = 408 ∨ 429 = 409 ∨ 429 = 429 ∨ 500 ≤ 429))
      ∧ (200 ≤ 429 ∧ 429 ≤ 299 → Client.should_retry 429 = false)
      ∧ (429 = 400 ∨ 429 = 401 ∨ 429 = 403 ∨ 429 = 404 ∨ 429 = 422 →
          Client.should_retry 429 = false)) :=
  ⟨by decide, c1_should_retry_amended 429 (by decide)⟩

/-- C2: the retry loop contract. For every logical call: at most
max_retries + 1 attempts occur; while the status is retryable and the
counter is below max_retries the loop records one backoff sleep with
argument attempts + 1 (the delay slept is calculate_retry_delay of that
argument) and reissues the identical request at the incremented counters;
otherwise it finalizes with the last response. With max_retries = 2 the
sequence 429, 429, 200 makes exactly 3 attempts and succeeds, and
500, 500, 500 makes exactly 3 attempts and ends in InternalServerError. -/
theorem c2_retry_loop_contract :
    (∀ (R : Type) (dec : String → Option R) (c : Client) (outcomes : Nat → AttemptOutcome),
      (Client.post c dec outcomes).attemptsUsed ≤ c.max_retries + 1)
    ∧ (∀ (R : Type) (dec : String → Option R) (mr attempts i : Nat)
        (outcomes : Nat → AttemptOutcome) (r : HttpResponse),
        outcomes i = .response r → attempts < mr → Client.should_retry r.status = true →
        postLoop dec mr outcomes attempts i =
          ⟨(postLoop dec mr outcomes (attempts + 1) (i + 1)).result,
           (postLoop dec mr outcomes (attempts + 1) (i + 1)).attemptsUsed,
           (attempts + 1) :: (postLoop dec mr outcomes (attempts + 1) (i + 1)).sleeps⟩)
    ∧ (∀ (R : Type) (dec : String → Option R) (mr attempts i : Nat)
        (outcomes : Nat → AttemptOutcome) (r : HttpResponse),
        outcomes i = .response r → ¬(attempts < mr ∧ Client.should_retry r.status = true) →
        postLoop dec mr outcomes attempts i = ⟨Client.handle_response dec r, i + 1, []⟩)
    ∧ Client.post client2 decUnit seq429200 = ⟨.ok (), 3, [1, 2]⟩
    ∧ Client.post client2 decUnit seq500 = ⟨.error (.InternalServerError "boom"), 3, [1, 2]⟩ := by
  refine ⟨?_, ?_, ?_, post_seq429200, post_seq500⟩
  · intro R dec c outcomes
    have h := postLoop_attempts_le dec c.max_retries outcomes c.max_retries 0 0 (by omega)
    show (postLoop dec c.max_retries outcomes 0 0).attemptsUsed ≤ c.max_retries + 1
    omega
  · intro R dec mr attempts i outcomes r h1 h2 h3
    exact postLoop_retry dec mr outcomes attempts i r h1 h2 h3
  · intro R dec mr attempts i outcomes r h1 h2
    exact postLoop_final dec mr outcomes attempts i r h1 h2

/-- C2, witness: the retry step of the contract at the first 429 of the
429, 429, 200 trace. -/
theorem c2_retry_loop_contract_witness :
    seq429200 0 = AttemptOutcome.response resp429
    ∧ 0 < 2
    ∧ Client.should_retry resp429.status = true
    ∧ postLoop decUnit 2 seq429200 0 0 =
        ⟨(postLoop decUnit 2 seq429200 1 1).result,
         (postLoop decUnit 2 seq429200 1 1).attemptsUsed,
         1 :: (postLoop decUnit 2 seq429200 1 1).sleeps⟩ :=
  ⟨rfl, by decide, by decide,
   c2_retry_loop_contract.2.1 Unit decUnit 2 0 0 seq429200 resp429 rfl (by decide) (by decide)⟩

/-- C3, counterexample. Under the u64 wrapping the claim itself
stipulates, 500 * 2 ^ 62 is a multiple of 2 ^ 64, so
calculate_retry_delay(63) is 0 milliseconds, not the claimed 8000 cap:
the cap does not hold for every attempt number at least 5. -/
theorem c3_retry_delay_counterexample :
    Client.calculate_retry_delay 63 = 0
    ∧ (5 : Nat) ≤ 63
    ∧ Client.calculate_retry_delay 63 ≠ 8000 := by decide

/-- C3, amended. For every n at least 1, calculate_retry_delay(n) equals
min of the wrapped product (500 * 2 ^ (n - 1)) mod 2 ^ 64 and 8000; the
values for n = 1..4 are 500, 1000, 2000, 4000; the 8000 cap holds exactly
for 5 <= n <= 62; for every n at least 63 the wrapped product is 0 and
the result is 0 milliseconds. -/
theorem c3_retry_delay_amended : ∀ n : Nat, 1 ≤ n →
    Client.calculate_retry_delay n = min ((500 * 2 ^ (n - 1)) % U64_MOD) 8000
    ∧ Client.calculate_retry_delay 1 = 500
    ∧ Client.calculate_retry_delay 2 = 1000
    ∧ Client.calculate_retry_delay 3 = 2000
    ∧ Client.calculate_retry_delay 4 = 4000
    ∧ (5 ≤ n → n ≤ 62 → Client.calculate_retry_delay n = 8000)
    ∧ (63 ≤ n → Client.calculate_retry_delay n = 0) := by
  intro n h1
  refine ⟨?_, by decide, by decide, by decide, by decide, ?_, ?_⟩
  · show min ((500 * (2 ^ (n - 1) % U64_MOD)) % U64_MOD) 8000 = _
    rw [mulmod_key]
  · intro h5 h62
    exact calculate_retry_delay_mid n (by omega) h5
  · intro h63
    exact calculate_retry_delay_high n h63

/-- C3, witness for the amended theorem at attempt number 5. -/
theorem c3_retry_delay_amended_witness :
    (1 : Nat) ≤ 5 ∧ Client.calculate_retry_delay 5 = 8000 :=
  ⟨by decide, (c3_retry_delay_amended 5 (by decide)).2.2.2.2.2.1 (by decide) (by decide)⟩

/-- C4: Error::from_status maps 400 to BadRequest, 401 to
AuthenticationError, 403 to PermissionDenied, 404 to NotFound, 409 to
Conflict, 422 to UnprocessableEntity, 429 to RateLimitExceeded, 500..599
to InternalServerError, and every other status to the generic Api error
carrying the raw status and message. -/
theorem c4_status_error_table : ∀ (m : String) (s : Nat),
    Error.from_status 400 m = .BadRequest m
    ∧ Error.from_status 401 m = .AuthenticationError m
    ∧ Error.from_status 403 m = .PermissionDenied m
    ∧ Error.from_status 404 m = .NotFound m
    ∧ Error.from_status 409 m = .Conflict m
    ∧ Error.from_status 422 m = .UnprocessableEntity m
    ∧ Error.from_status 429 m = .RateLimitExceeded m
    ∧ (500 ≤ s → s ≤ 599 → Error.from_status s m = .InternalServerError m)
    ∧ (s ≠ 400 → s ≠ 401 → s ≠ 403 → s ≠ 404 → s ≠ 409 → s ≠ 422 → s ≠ 429 →
        ¬(500 ≤ s ∧ s ≤ 599) → Error.from_status s m = .Api s m) := by
  intro m s
  refine ⟨rfl, rfl, rfl, rfl, rfl, rfl, rfl, ?_, ?_⟩
  · intro h5 h6
    simp only [Error.from_status]
    rw [if_neg (by omega), if_neg (by omega), if_neg (by omega), if_neg (by omega),
        if_neg (by omega), if_neg (by omega), if_neg (by omega), if_pos ⟨h5, h6⟩]
  · intro h1 h2 h3 h4 h5 h6 h7 h8
    simp only [Error.from_status]
    rw [if_neg h1, if_neg h2, if_neg h3, if_neg h4, if_neg h5, if_neg h6, if_neg h7, if_neg h8]

/-- C4, witness: the wildcard row at status 418. -/
theorem c4_status_error_table_witness :
    (418 : Nat) ≠ 400 ∧ Error.from_status 418 "teapot" = .Api 418 "teapot" :=
  ⟨by decide,
   (c4_status_error_table "teapot" 418).2.2.2.2.2.2.2.2 (by decide) (by decide) (by decide)
     (by decide) (by decide) (by decide) (by decide) (by decide)⟩

/-- C5, counterexample. The claim says construction with an empty api_key
string fails. The code only tests availability (Option some or none), so
building with the explicit empty string (and a successful reqwest client
assembly) succeeds and yields a client whose api_key is empty: the
non-emptiness invariant is not enforced. -/
theorem c5_build_empty_key_counterexample :
    ClientBuilder.build ⟨some "", none, none, none⟩ ⟨none, none⟩ (.ok ()) =
      .ok ⟨"", DEFAULT_BASE_URL, DEFAULT_TIMEOUT, DEFAULT_MAX_RETRIES⟩ := rfl

/-- C5, amended. Construction fails with InvalidApiKey, before any
network call, exactly when no API key is supplied: neither an explicit
value nor the environment variable is present, and this check precedes
the reqwest client assembly, so a missing key yields InvalidApiKey
whatever that later step does. An explicitly supplied key is accepted
even when it is the empty string. Every other construction-time failure
is the Http error wrapping the reqwest error of the fallible
HttpClient::builder().build() step, which is independent of the key. -/
theorem c5_build_amended : ∀ (b : ClientBuilder) (env : Env) (hb : Except ReqwestError Unit),
    (ClientBuilder.build b env hb = .error Error.InvalidApiKey ↔
      b.api_key = none ∧ env.zeroentropy_api_key = none)
    ∧ (∀ e, ClientBuilder.build b env hb = .error e →
        e = Error.InvalidApiKey ∨ ∃ re, e = Error.Http re)
    ∧ ClientBuilder.build ⟨none, none, none, none⟩ ⟨none, none⟩ hb = .error Error.InvalidApiKey := by
  rintro ⟨bak, bbu, bto, bmr⟩ ⟨eak, ebu⟩ hb
  cases bak <;> cases eak <;> cases hb <;>
    simp [ClientBuilder.build, Option.orElse]

/-- C5, witness: building with no key from any source (and a successful
reqwest client assembly) fails with InvalidApiKey. -/
theorem c5_build_amended_witness :
    ClientBuilder.build ⟨none, none, none, none⟩ ⟨none, none⟩ (.ok ()) = .error Error.InvalidApiKey
    ∧ (Error.InvalidApiKey = Error.InvalidApiKey ∨ ∃ re, Error.InvalidApiKey = Error.Http re) :=
  ⟨rfl,
   (c5_build_amended ⟨none, none, none, none⟩ ⟨none, none⟩ (.ok ())).2.1 Error.InvalidApiKey rfl⟩

/-- C6, counterexample. The claim says a 2xx body that fails to
deserialize yields a DecodeError kind distinct from the transport-error
kind. In the code both are the same Error::Http variant (the enum has no
DecodeError): a 200 response with an undecodable body and a transport
failure produce errors of the identical kind (equal constructor index),
distinguished only inside the wrapped reqwest error. -/
theorem c6_decode_error_counterexample :
    (Client.post client2 decUnit seqBadBody).result = .error (.Http .decode)
    ∧ (Client.post client2 decUnit seqFail).result = .error (.Http .transport)
    ∧ Error.ctorIdx (.Http .decode) = Error.ctorIdx (.Http .transport) := by
  refine ⟨?_, ?_, rfl⟩
  · show (postLoop decUnit 2 seqBadBody 0 0).result = _
    rw [postLoop_final decUnit 2 seqBadBody 0 0 ⟨200, some "garbage"⟩ rfl
      (by rintro ⟨h1, h2⟩; exact absurd h2 (by decide))]
    rfl
  · show (postLoop decUnit 2 seqFail 0 0).result = _
    rw [postLoop_failure decUnit 2 seqFail 0 0 rfl]

/-- C6, amended. A 2xx response whose body fails to deserialize surfaces
as the Http error kind wrapping a reqwest decode error: never a success
value, and a kind distinct from every status-mapped kind; it is however
the same enum variant as a transport failure, not a separate DecodeError
kind. -/
theorem c6_decode_error_amended : ∀ (R : Type) (dec : String → Option R) (s : Nat) (b : String),
    Client.is_success s = true → dec b = none →
    Client.handle_response dec ⟨s, some b⟩ = .error (.Http .decode)
    ∧ (∀ v : R, Client.handle_response dec ⟨s, some b⟩ ≠ .ok v)
    ∧ (∀ (s2 : Nat) (msg : String), Error.Http .decode ≠ Error.from_status s2 msg) := by
  intro R dec s b hsucc hdec
  have h1 : Client.handle_response dec ⟨s, some b⟩ = .error (.Http .decode) := by
    simp [Client.handle_response, hsucc, hdec]
  refine ⟨h1, ?_, ?_⟩
  · intro v
    rw [h1]
    simp
  · intro s2 msg
    simp only [Error.from_status]
    split_ifs <;> simp

/-- C6, witness for the amended theorem at a 200 response with an
undecodable body. -/
theorem c6_decode_error_amended_witness :
    Client.is_success 200 = true
    ∧ decUnit "garbage" = none
    ∧ (Client.handle_response decUnit ⟨200, some "garbage"⟩ = .error (.Http .decode)
      ∧ (∀ v : Unit, Client.handle_response decUnit ⟨200, some "garbage"⟩ ≠ .ok v)
      ∧ (∀ (s2 : Nat) (msg : String), Error.Http .decode ≠ Error.from_status s2 msg)) :=
  ⟨by decide, by decide, c6_decode_error_amended Unit decUnit 200 "garbage" (by decide) (by decide)⟩

/-- C7: the error-message fallback chain for finalized non-2xx responses.
If the body text parses as JSON with a string message field, that field is
the message; if parsing fails or the field is absent or not a string, the
raw body text is the message; if the body is unavailable, the placeholder
Unknown error is the message. A 404 with a JSON message body yields
NotFound of that message with zero retries; a 409 with an unparsable body
finalizes as Conflict of the raw body text. -/
theorem c7_error_message_chain :
    (∀ (R : Type) (dec : String → Option R) (s : Nat) (body msg : String),
      Client.is_success s = false → Client.extract_message body = some msg →
      Client.handle_response dec ⟨s, some body⟩ = .error (Error.from_status s msg))
    ∧ (∀ (R : Type) (dec : String → Option R) (s : Nat) (body : String),
      Client.is_success s = false → Client.extract_message body = none →
      Client.handle_response dec ⟨s, some body⟩ = .error (Error.from_status s body))
    ∧ (∀ (R : Type) (dec : String → Option R) (s : Nat),
      Client.is_success s = false →
      Client.handle_response dec ⟨s, none⟩ = .error (Error.from_status s "Unknown error"))
    ∧ Client.post client2 decUnit seq404 = ⟨.error (.NotFound "Collection not found"), 1, []⟩
    ∧ Client.handle_response decUnit ⟨409, some "not-json"⟩ = .error (.Conflict "not-json") := by
  refine ⟨?_, ?_, ?_, post_seq404, rfl⟩
  · intro R dec s body msg hs hm
    simp [Client.handle_response, hs, hm]
  · intro R dec s body hs hm
    simp [Client.handle_response, hs, hm]
  · intro R dec s hs
    have he : Client.extract_message "Unknown error" = none := rfl
    simp [Client.handle_response, hs, he]

/-- C7, witness: the JSON-message branch of the chain at the 404 example. -/
theorem c7_error_message_chain_witness :
    Client.is_success 404 = false
    ∧ Client.extract_message "\x7b\"message\":\"Collection not found\"\x7d" =
        some "Collection not found"
    ∧ Client.handle_response decUnit ⟨404, some "\x7b\"message\":\"Collection not found\"\x7d"⟩ =
        .error (Error.from_status 404 "Collection not found") :=
  ⟨by decide, rfl,
   c7_error_message_chain.1 Unit decUnit 404 "\x7b\"message\":\"Collection not found\"\x7d"
     "Collection not found" (by decide) rfl⟩

/-- C8: a transport-level failure of an attempt terminates the logical
call at once with the Http transport error: no retry, no backoff sleep,
no further attempt, whatever retry budget remains. -/
theorem c8_transport_failure_terminal :
    (∀ (R : Type) (dec : String → Option R) (mr : Nat) (outcomes : Nat → AttemptOutcome)
        (attempts i : Nat), outcomes i = .failure →
        postLoop dec mr outcomes attempts i = ⟨.error (.Http .transport), i + 1, []⟩)
    ∧ (∀ (R : Type) (dec : String → Option R) (c : Client) (outcomes : Nat → AttemptOutcome),
        outcomes 0 = .failure →
        Client.post c dec outcomes = ⟨.error (.Http .transport), 1, []⟩) := by
  refine ⟨?_, ?_⟩
  · intro R dec mr outcomes attempts i h
    exact postLoop_failure dec mr outcomes attempts i h
  · intro R dec c outcomes h
    show postLoop dec c.max_retries outcomes 0 0 = _
    rw [postLoop_failure dec c.max_retries outcomes 0 0 h]

/-- C8, witness: a first-attempt transport failure under a client with
retry budget 2. -/
theorem c8_transport_failure_terminal_witness :
    seqFail 0 = AttemptOutcome.failure
    ∧ Client.post client2 decUnit seqFail = ⟨.error (.Http .transport), 1, []⟩ :=
  ⟨rfl, c8_transport_failure_terminal.2 Unit decUnit client2 seqFail rfl⟩

/-- C9: every facade request body is a JSON object; every required field
key is always present; every optional field key is present exactly when
the value is Some, so an absent optional field is omitted entirely and in
particular never appears with a null value. -/
theorem c9_optional_fields_omitted :
    (∀ r : CollectionNameRequest, r.toJson.isObj = true
      ∧ r.toJson.hasKey "collection_name" = true)
    ∧ getCollectionListBody.isObj = true
    ∧ (∀ r : AddDocumentRequest, r.toJson.isObj = true
      ∧ r.toJson.hasKey "collection_name" = true
      ∧ r.toJson.hasKey "path" = true
      ∧ r.toJson.hasKey "content" = true
      ∧ r.toJson.hasKey "metadata" = r.metadata.isSome
      ∧ r.toJson.hasKey "overwrite" = r.overwrite.isSome)
    ∧ (∀ r : UpdateDocumentRequest, r.toJson.isObj = true
      ∧ r.toJson.hasKey "collection_name" = true
      ∧ r.toJson.hasKey "path" = true
      ∧ r.toJson.hasKey "metadata" = r.metadata.isSome
      ∧ r.toJson.hasKey "index_status" = r.index_status.isSome)
    ∧ (∀ r : DeleteDocumentRequest, r.toJson.isObj = true
      ∧ r.toJson.hasKey "collection_name" = true
      ∧ r.toJson.hasKey "path" = true)
    ∧ (∀ r : GetDocumentInfoRequest, r.toJson.isObj = true
      ∧ r.toJson.hasKey "collection_name" = true
      ∧ r.toJson.hasKey "path" = true
      ∧ r.toJson.hasKey "include_content" = r.include_content.isSome)
    ∧ (∀ r : GetDocumentInfoListRequest, r.toJson.isObj = true
      ∧ r.toJson.hasKey "collection_name" = true
      ∧ r.toJson.hasKey "limit" = r.limit.isSome
      ∧ r.toJson.hasKey "path_gt" = r.path_gt.isSome)
    ∧ (∀ r : GetPageInfoRequest, r.toJson.isObj = true
      ∧ r.toJson.hasKey "collection_name" = true
      ∧ r.toJson.hasKey "path" = true
      ∧ r.toJson.hasKey "page_number" = true
      ∧ r.toJson.hasKey "include_content" = r.include_content.isSome)
    ∧ (∀ r : TopDocumentsRequest, r.toJson.isObj = true
      ∧ r.toJson.hasKey "collection_name" = true
      ∧ r.toJson.hasKey "query" = true
      ∧ r.toJson.hasKey "k" = true
      ∧ r.toJson.hasKey "filter" = r.filter.isSome
      ∧ r.toJson.hasKey "include_metadata" = r.include_metadata.isSome
      ∧ r.toJson.hasKey "latency_mode" = r.latency_mode.isSome
      ∧ r.toJson.hasKey "reranker" = r.reranker.isSome)
    ∧ (∀ r : TopPagesRequest, r.toJson.isObj = true
      ∧ r.toJson.hasKey "collection_name" = true
      ∧ r.toJson.hasKey "query" = true
      ∧ r.toJson.hasKey "k" = true
      ∧ r.toJson.hasKey "filter" = r.filter.isSome
      ∧ r.toJson.hasKey "include_content" = r.include_content.isSome
      ∧ r.toJson.hasKey "latency_mode" = r.latency_mode.isSome)
    ∧ (∀ r : TopSnippetsRequest, r.toJson.isObj = true
      ∧ r.toJson.hasKey "collection_name" = true
      ∧ r.toJson.hasKey "query" = true
      ∧ r.toJson.hasKey "k" = true
      ∧ r.toJson.hasKey "filter" = r.filter.isSome
      ∧ r.toJson.hasKey "include_document_metadata" = r.include_document_metadata.isSome
      ∧ r.toJson.hasKey "precise_responses" = r.precise_responses.isSome
      ∧ r.toJson.hasKey "reranker" = r.reranker.isSome)
    ∧ (∀ r : RerankRequest, r.toJson.isObj = true
      ∧ r.toJson.hasKey "query" = true
      ∧ r.toJson.hasKey "documents" = true
      ∧ r.toJson.hasKey "model_id" = r.model_id.isSome
      ∧ r.toJson.hasKey "top_k" = r.top_k.isSome) := by
  refine ⟨?_, rfl, ?_, ?_, ?_, ?_, ?_, ?_, ?_, ?_, ?_, ?_⟩
  · rintro ⟨a⟩
    exact ⟨rfl, rfl⟩
  · rintro ⟨a, b, c, m, o⟩
    cases m <;> cases o <;> exact ⟨rfl, rfl, rfl, rfl, rfl, rfl⟩
  · rintro ⟨a, b, m, i0⟩
    cases m <;> cases i0 <;> exact ⟨rfl, rfl, rfl, rfl, rfl⟩
  · rintro ⟨a, b⟩
    exact ⟨rfl, rfl, rfl⟩
  · rintro ⟨a, b, ic⟩
    cases ic <;> exact ⟨rfl, rfl, rfl, rfl⟩
  · rintro ⟨a, l, p⟩
    cases l <;> cases p <;> exact ⟨rfl, rfl, rfl, rfl⟩
  · rintro ⟨a, b, pn, ic⟩
    cases ic <;> exact ⟨rfl, rfl, rfl, rfl, rfl⟩
  · rintro ⟨a, q, k, f, im, lm, rr⟩
    cases f <;> cases im <;> cases lm <;> cases rr <;>
      exact ⟨rfl, rfl, rfl, rfl, rfl, rfl, rfl, rfl⟩
  · rintro ⟨a, q, k, f, ic, lm⟩
    cases f <;> cases ic <;> cases lm <;> exact ⟨rfl, rfl, rfl, rfl, rfl, rfl, rfl⟩
  · rintro ⟨a, q, k, f, idm, pr, rr⟩
    cases f <;> cases idm <;> cases pr <;> cases rr <;>
      exact ⟨rfl, rfl, rfl, rfl, rfl, rfl, rfl, rfl⟩
  · rintro ⟨q, d, mi, tk⟩
    cases mi <;> cases tk <;> exact ⟨rfl, rfl, rfl, rfl, rfl⟩

/-- C10: in every execution of post, the arguments handed to
calculate_retry_delay lie in 1..max_retries, so the u32 subtraction
attempt - 1 inside it never underflows, and a backoff sleep only happens
while retry budget remains. -/
theorem c10_delay_argument_bounds : ∀ (R : Type) (dec : String → Option R) (c : Client)
    (outcomes : Nat → AttemptOutcome) (n : Nat),
    n ∈ (Client.post c dec outcomes).sleeps → 1 ≤ n ∧ n ≤ c.max_retries := by
  intro R dec c outcomes n hn
  have hn2 : n ∈ (postLoop dec c.max_retries outcomes 0 0).sleeps := hn
  have h := postLoop_sleeps_mem dec c.max_retries outcomes c.max_retries 0 0 (by omega) n hn2
  omega

/-- C10, witness: the first recorded backoff argument of the 429, 429, 200
trace is 1, within 1..max_retries. -/
theorem c10_delay_argument_bounds_witness :
    1 ∈ (Client.post client2 decUnit seq429200).sleeps
    ∧ (1 ≤ 1 ∧ 1 ≤ client2.max_retries) := by
  have hm : 1 ∈ (Client.post client2 decUnit seq429200).sleeps := by
    rw [post_seq429200]
    simp
  exact ⟨hm, c10_delay_argument_bounds Unit decUnit client2 seq429200 1 hm⟩

end ZeroEntropy
